import Mathlib

/-!
Formal model of the btc-range-gate regime engine.

Shallow embedding of the Python modules `config.py`, `range_gate.py`,
`trend_gate.py`, `regime_engine.py` and `trade_plan.py`.  Prices are
modelled as exact rationals; the formatted diagnostic strings produced by
the Python code are modelled by the structured inductive type `Diag`
(one constructor per distinct message, carrying the numeric payload that
the Python code interpolates into the string).  The network fetches are
factored out: every top-level function takes the fetched candle list as
an explicit argument.
-/

/-- One OHLC candle (`range_gate.Candle` / `data_source.Candle`).
The `open` price field is called `open_price` because `open` is a Lean
keyword. -/
structure Candle where
  open_time : ℕ
  open_price : ℚ
  high : ℚ
  low : ℚ
  close : ℚ
  deriving DecidableEq, Repr

instance : Inhabited Candle := ⟨⟨0, 0, 0, 0, 0⟩⟩

/-! Locked configuration constants from `config.py` and `trend_gate.py`. -/

def LOOKBACK_DAYS_MIN : ℕ := 7
def LOOKBACK_DAYS_MAX : ℕ := 10
def MIN_RANGE_WIDTH_PCT : ℚ := 1.5
def MIN_CLOSES_INSIDE_PCT : ℚ := 95.0
def MIN_REJECTIONS : ℕ := 2
def MIN_BOUNCES : ℕ := 2
def PROXIMITY_PCT : ℚ := 0.25
def TREND_EXPANSION_PCT : ℚ := 1.00
def CANDLES_PER_DAY : ℕ := 6

def LOOKBACK_DAYS : ℕ := 8
def MIN_NET_MOVE_PCT : ℚ := 4.0
def MIN_DIRECTIONAL_CLOSES : ℕ := 5
def MAX_RETRACE_PCT : ℚ := 50.0

/-- Python slice `l[-n:]` (for `n > 0`): the trailing `n` elements.
All call sites in the model use `n > 0`, where this agrees with Python
(`l[-0:]` would be the whole list, a case never exercised). -/
def lastN {α : Type} (l : List α) (n : ℕ) : List α :=
  l.drop (l.length - n)

/-- Python `max` over a (nonempty at every call site) list; 0 on `[]`. -/
def listMax : List ℚ → ℚ
  | [] => 0
  | x :: xs => xs.foldl max x

/-- Python `min` over a (nonempty at every call site) list; 0 on `[]`. -/
def listMin : List ℚ → ℚ
  | [] => 0
  | x :: xs => xs.foldl min x

/-- Function `percent_change` from `range_gate.py` / `trend_gate.py`. -/
def percent_change (a b : ℚ) : ℚ :=
  (a - b) / b * 100

/-- Structured model of the diagnostic / reason strings the Python code
builds.  Each constructor stands for one distinct message format, with
the interpolated numeric value as payload. -/
inductive Diag where
  | rangeWidth (pct : ℚ)            -- "Range width: {pct}%"
  | closesInside (pct : ℚ)          -- "Closes inside: {pct}%"
  | upperRejections (n : ℕ)         -- "Upper rejections: {n}"
  | lowerBounces (n : ℕ)            -- "Lower bounces: {n}"
  | recentMove (pct : ℚ)            -- "Recent 2d move: {pct}%"
  | failRangeWidth (pct : ℚ)        -- "Range width {pct}% < 1.5%"
  | failClosesInside (pct : ℚ)      -- "Closes inside range {pct}% < 95.0%"
  | failUpperRejections (n : ℕ)     -- "Upper rejections {n} < 2"
  | failLowerBounces (n : ℕ)        -- "Lower bounces {n} < 2"
  | failRecentMove (pct : ℚ)        -- "Recent 2d move {pct}% > 1.0%"
  | failuresHeader                  -- "FAILURES:"
  | insufficientData                -- "Insufficient candle data"
  | insufficientDailyData           -- "Insufficient daily data"
  | validRange (days : ℕ)           -- "Valid {days}-day range detected"
  | windowChecked (days : ℕ)        -- "Window checked: {days} days"
  | dailyBearish                    -- "Daily structure is bearish"
  | longDiscouraged                 -- "Long exposure discouraged"
  | standingDown                    -- "Standing down"
  | noValidatedRange                -- "No validated range"
  | noConfirmedTrend                -- "No confirmed trend"
  | betweenRegimes                  -- "Market between regimes"
  deriving DecidableEq, Repr

/-- Model of `range_gate.RangeDecision`. -/
structure RangeDecision where
  decision : String
  reasons : List Diag
  deriving DecidableEq, Repr

/-- Model of `range_gate.evaluate_window`: does the trailing `days`-day window
satisfy all five locked range rules?  Mirrors the Python rule order
(width, closes-inside, upper rejections, lower bounces, recent move). -/
def evaluate_window (candles : List Candle) (days : ℕ) : Bool × List Diag :=
  let needed := days * CANDLES_PER_DAY
  let window := lastN candles needed
  let highs := window.map Candle.high
  let lows := window.map Candle.low
  let upper := listMax highs
  let lower := listMin lows
  -- Rule 5 — Range width
  let range_width_pct := (upper - lower) / lower * 100
  let r5 : List Diag :=
    if range_width_pct < MIN_RANGE_WIDTH_PCT then [Diag.failRangeWidth range_width_pct] else []
  -- Rule 4 — Closes inside range
  let inside := window.countP (fun c => decide (lower ≤ c.close ∧ c.close ≤ upper))
  let inside_pct := (inside : ℚ) / (window.length : ℚ) * 100
  let r4 : List Diag :=
    if inside_pct < MIN_CLOSES_INSIDE_PCT then [Diag.failClosesInside inside_pct] else []
  -- Rule 2 — Upper boundary rejections
  let upper_near := upper * (1 - PROXIMITY_PCT / 100)
  let upper_rejections := window.countP
    (fun c => decide (upper_near ≤ c.high ∧ c.close < upper ∧ upper_near ≤ c.close))
  let r2 : List Diag :=
    if upper_rejections < MIN_REJECTIONS then [Diag.failUpperRejections upper_rejections] else []
  -- Rule 3 — Lower boundary bounces
  let lower_near := lower * (1 + PROXIMITY_PCT / 100)
  let lower_bounces := window.countP
    (fun c => decide (c.low ≤ lower_near ∧ lower < c.close ∧ c.close ≤ lower_near))
  let r3 : List Diag :=
    if lower_bounces < MIN_BOUNCES then [Diag.failLowerBounces lower_bounces] else []
  -- Rule 6 — No recent directional expansion (last ~2 days of the window)
  let recent := lastN window (CANDLES_PER_DAY * 2)
  let net_move := |percent_change recent.getLastI.close recent.headI.close|
  let r6 : List Diag :=
    if TREND_EXPANSION_PCT < net_move then [Diag.failRecentMove net_move] else []
  let reasons := r5 ++ r4 ++ r2 ++ r3 ++ r6
  let diagnostics : List Diag :=
    [Diag.rangeWidth range_width_pct, Diag.closesInside inside_pct,
     Diag.upperRejections upper_rejections, Diag.lowerBounces lower_bounces,
     Diag.recentMove net_move]
  if reasons ≠ [] then (false, diagnostics ++ [Diag.failuresHeader] ++ reasons)
  else (true, diagnostics)

/-- The five always-produced diagnostics of `evaluate_window` (its
`diagnostics` local variable), as a named decomposition. -/
def window_diagnostics (candles : List Candle) (days : ℕ) : List Diag :=
  let needed := days * CANDLES_PER_DAY
  let window := lastN candles needed
  let upper := listMax (window.map Candle.high)
  let lower := listMin (window.map Candle.low)
  let range_width_pct := (upper - lower) / lower * 100
  let inside := window.countP (fun c => decide (lower ≤ c.close ∧ c.close ≤ upper))
  let inside_pct := (inside : ℚ) / (window.length : ℚ) * 100
  let upper_near := upper * (1 - PROXIMITY_PCT / 100)
  let upper_rejections := window.countP
    (fun c => decide (upper_near ≤ c.high ∧ c.close < upper ∧ upper_near ≤ c.close))
  let lower_near := lower * (1 + PROXIMITY_PCT / 100)
  let lower_bounces := window.countP
    (fun c => decide (c.low ≤ lower_near ∧ lower < c.close ∧ c.close ≤ lower_near))
  let recent := lastN window (CANDLES_PER_DAY * 2)
  let net_move := |percent_change recent.getLastI.close recent.headI.close|
  [Diag.rangeWidth range_width_pct, Diag.closesInside inside_pct,
   Diag.upperRejections upper_rejections, Diag.lowerBounces lower_bounces,
   Diag.recentMove net_move]

/-- The ordered failing-rule list of `evaluate_window` (its `reasons`
local variable), as a named decomposition. -/
def window_failures (candles : List Candle) (days : ℕ) : List Diag :=
  let needed := days * CANDLES_PER_DAY
  let window := lastN candles needed
  let upper := listMax (window.map Candle.high)
  let lower := listMin (window.map Candle.low)
  let range_width_pct := (upper - lower) / lower * 100
  let r5 : List Diag :=
    if range_width_pct < MIN_RANGE_WIDTH_PCT then [Diag.failRangeWidth range_width_pct] else []
  let inside := window.countP (fun c => decide (lower ≤ c.close ∧ c.close ≤ upper))
  let inside_pct := (inside : ℚ) / (window.length : ℚ) * 100
  let r4 : List Diag :=
    if inside_pct < MIN_CLOSES_INSIDE_PCT then [Diag.failClosesInside inside_pct] else []
  let upper_near := upper * (1 - PROXIMITY_PCT / 100)
  let upper_rejections := window.countP
    (fun c => decide (upper_near ≤ c.high ∧ c.close < upper ∧ upper_near ≤ c.close))
  let r2 : List Diag :=
    if upper_rejections < MIN_REJECTIONS then [Diag.failUpperRejections upper_rejections] else []
  let lower_near := lower * (1 + PROXIMITY_PCT / 100)
  let lower_bounces := window.countP
    (fun c => decide (c.low ≤ lower_near ∧ lower < c.close ∧ c.close ≤ lower_near))
  let r3 : List Diag :=
    if lower_bounces < MIN_BOUNCES then [Diag.failLowerBounces lower_bounces] else []
  let recent := lastN window (CANDLES_PER_DAY * 2)
  let net_move := |percent_change recent.getLastI.close recent.headI.close|
  let r6 : List Diag :=
    if TREND_EXPANSION_PCT < net_move then [Diag.failRecentMove net_move] else []
  r5 ++ r4 ++ r2 ++ r3 ++ r6

/-- The candidate-day loop of `range_gate.range_gate_decision`.
`last_days` / `last_diagnostics` mirror Python's leaked loop variable
`days` and the `last_diagnostics` accumulator. -/
def range_gate_loop (candles : List Candle) :
    List ℕ → ℕ → List Diag → RangeDecision
  | [], last_days, last_diagnostics =>
      ⟨"NO RANGE", Diag.windowChecked last_days :: last_diagnostics⟩
  | days :: rest, _, _ =>
      let res := evaluate_window candles days
      if res.1 then ⟨"RANGE VALID", Diag.validRange days :: res.2⟩
      else range_gate_loop candles rest days res.2

/-- Model of `range_gate.range_gate_decision`, with the fetched candles passed in
explicitly instead of fetched over the network. -/
def range_gate_decision (candles : List Candle) : RangeDecision :=
  if candles.length < LOOKBACK_DAYS_MAX * CANDLES_PER_DAY then
    ⟨"NO RANGE", [Diag.insufficientData]⟩
  else
    range_gate_loop candles
      (List.range' LOOKBACK_DAYS_MIN (LOOKBACK_DAYS_MAX + 1 - LOOKBACK_DAYS_MIN)) 0 []

/-! The synthetic candle set built by `range_gate.synthetic_perfect_range_test`.
The Python code first builds 42 flat candles around `mid = 104`, then
overwrites indices 8 and 14 with upper-band touches, indices 20 and 26
with lower-band touches, and indices 30–41 with tighter flat candles.
The overwritten index sets are disjoint, so the net effect is the
per-index case split below. -/

def syn_upper : ℚ := 108
def syn_lower : ℚ := 100
def syn_mid : ℚ := 104
def syn_upper_near : ℚ := syn_upper * (1 - PROXIMITY_PCT / 100)
def syn_lower_near : ℚ := syn_lower * (1 + PROXIMITY_PCT / 100)

def syn_candle (i : ℕ) : Candle :=
  if i = 8 ∨ i = 14 then
    ⟨i, syn_upper_near, syn_upper, syn_upper_near - 0.5, syn_upper_near⟩
  else if i = 20 ∨ i = 26 then
    ⟨i, syn_lower_near, syn_lower_near + 0.5, syn_lower, syn_lower_near⟩
  else if 30 ≤ i then
    ⟨i, syn_mid, syn_mid + 0.2, syn_mid - 0.2, syn_mid⟩
  else
    ⟨i, syn_mid, syn_mid + 0.3, syn_mid - 0.3, syn_mid⟩

/-- The 42 synthetic candles of `synthetic_perfect_range_test`. -/
def synthetic_candles : List Candle :=
  (List.range 42).map syn_candle

/-- The synthetic candles padded in front to the 60-candle minimum that
`range_gate_decision` requires; the 18 padding candles are dropped by the
trailing-window slice for every candidate day count (7×6 = 42). -/
def synthetic_candles_padded : List Candle :=
  ((List.range 18).map (fun i => ⟨i, syn_mid, syn_mid + 0.3, syn_mid - 0.3, syn_mid⟩))
    ++ synthetic_candles

/-! ## Trend gate (`trend_gate.py`) -/

/-- Structured model of `trend_gate`'s diagnostics dict (built with these
exact keys whenever the window is long enough). -/
structure TrendDiagnostics where
  direction : String
  price_then : ℚ
  price_now : ℚ
  net_move_pct : ℚ
  directional_closes : ℕ
  pullback_observed : Bool
  pullback_failed : Bool
  deriving DecidableEq, Repr

/-- Model of `trend_gate.TrendDecision`; the empty diagnostics dict of the
insufficient-data branch is modelled as `none`. -/
structure TrendDecision where
  decision : String
  direction : Option String
  reasons : List Diag
  diagnostics : Option TrendDiagnostics
  deriving DecidableEq, Repr

/-- The trailing `LOOKBACK_DAYS` window (`window = candles[-LOOKBACK_DAYS:]`). -/
def trendWindow (candles : List Candle) : List Candle :=
  lastN candles LOOKBACK_DAYS

/-- Python `start_price = window[0].close` (also `expansion_origin` in the code). -/
def start_price (candles : List Candle) : ℚ :=
  (trendWindow candles).headI.close

/-- Python `end_price = window[-1].close`. -/
def end_price (candles : List Candle) : ℚ :=
  (trendWindow candles).getLastI.close

/-- Python `net_move_pct = percent_change(end_price, start_price)`. -/
def net_move_pct (candles : List Candle) : ℚ :=
  percent_change (end_price candles) (start_price candles)

/-- Python `direction = "UP" if net_move_pct > 0 else "DOWN"`. -/
def trendDirection (candles : List Candle) : String :=
  if 0 < net_move_pct candles then "UP" else "DOWN"

/-- The consecutive (previous, current) candle pairs of the window;
models the Python loop index range `1 .. len(window)-1`. -/
def trendPairs (candles : List Candle) : List (Candle × Candle) :=
  (trendWindow candles).zip (trendWindow candles).tail

/-- One step of the pullback scan: the two independent `if` statements of
the Python loop body, updating the `(pullback_observed, pullback_failed)`
flag pair for one (previous, current) candle pair. -/
def pullbackStep (dir : String) (origin : ℚ) (acc : Bool × Bool)
    (p : Candle × Candle) : Bool × Bool :=
  let a1 := if dir = "UP" ∧ p.2.close < p.1.close
    then (true, acc.2 || decide (origin < p.2.low)) else acc
  if dir = "DOWN" ∧ p.1.close < p.2.close
    then (true, a1.2 || decide (p.2.high < origin)) else a1

/-- The whole pullback-detection loop of `evaluate_trend`, returning the
final `(pullback_observed, pullback_failed)` flags. -/
def pullbackScan (dir : String) (origin : ℚ)
    (pairs : List (Candle × Candle)) : Bool × Bool :=
  pairs.foldl (pullbackStep dir origin) (false, false)

/-- The `directional_closes` counter of `evaluate_trend` (the two Python
`if`s in the loop body are exclusive, since `dir` is a single string, so
the loop counts the pairs satisfying their disjunction). -/
def directional_closes_count (candles : List Candle) : ℕ :=
  (trendPairs candles).countP
    (fun p => decide ((trendDirection candles = "UP" ∧ p.1.close < p.2.close)
                    ∨ (trendDirection candles = "DOWN" ∧ p.2.close < p.1.close)))

/-- The `(pullback_observed, pullback_failed)` flags of `evaluate_trend`
(`expansion_origin = window[0].close`, i.e. `start_price`). -/
def pullbackFlags (candles : List Candle) : Bool × Bool :=
  pullbackScan (trendDirection candles) (start_price candles) (trendPairs candles)

/-- Python `retrace_pct = abs(percent_change(trough, peak))` over the window. -/
def retrace_pct (candles : List Candle) : ℚ :=
  |percent_change (listMin ((trendWindow candles).map Candle.low))
                  (listMax ((trendWindow candles).map Candle.high))|

/-- The `confirmed` conjunction of `evaluate_trend`. -/
def trendConfirmed (candles : List Candle) : Bool :=
  decide (MIN_NET_MOVE_PCT ≤ |net_move_pct candles|)
    && decide (MIN_DIRECTIONAL_CLOSES ≤ directional_closes_count candles)
    && (pullbackFlags candles).1
    && (pullbackFlags candles).2
    && decide (retrace_pct candles ≤ MAX_RETRACE_PCT)

/-- Model of `trend_gate.evaluate_trend` (the Python local variables are the named
functions above). -/
def evaluate_trend (candles : List Candle) : TrendDecision :=
  if candles.length < LOOKBACK_DAYS + 1 then
    ⟨"NO TREND", none, [Diag.insufficientDailyData], none⟩
  else
    { decision := if trendConfirmed candles then "TREND CONFIRMED" else "NO TREND"
      direction := if trendConfirmed candles then some (trendDirection candles) else none
      reasons := []
      diagnostics := some
        { direction := trendDirection candles
          price_then := start_price candles
          price_now := end_price candles
          net_move_pct := net_move_pct candles
          directional_closes := directional_closes_count candles
          pullback_observed := (pullbackFlags candles).1
          pullback_failed := (pullbackFlags candles).2 } }

/-! ## Regime engine (`regime_engine.py`) -/

/-- Model of `regime_engine.RegimeDecision`. -/
structure RegimeDecision where
  strategy : String
  regime : String
  notes : List Diag
  range_decision : String
  trend_decision : String
  trend_direction : Option String
  deriving DecidableEq, Repr

/-- Model of `regime_engine.decide_regime`, with both candle fetches passed in
explicitly (`range_candles` for the 4H range gate, `daily_candles` for
the daily trend gate). -/
def decide_regime (range_candles daily_candles : List Candle) : RegimeDecision :=
  -- `range_result` / `trend_result` of the Python code are inlined
  if (range_gate_decision range_candles).decision = "RANGE VALID" then
    { strategy := "RANGE TRADING"
      regime := "VALID_RANGE (4H)"
      notes := (range_gate_decision range_candles).reasons
      range_decision := (range_gate_decision range_candles).decision
      trend_decision := "SKIPPED"
      trend_direction := none }
  else
    if (evaluate_trend daily_candles).decision = "TREND CONFIRMED" then
      if (evaluate_trend daily_candles).direction = some "UP" then
        { strategy := "TREND PULLBACK (SPOT)"
          regime := "TREND CONFIRMED (DAILY, UP)"
          notes := (evaluate_trend daily_candles).reasons
          range_decision := "NO RANGE"
          trend_decision := (evaluate_trend daily_candles).decision
          trend_direction := some "UP" }
      else
        -- Downtrend → explicit stand down
        { strategy := "NO ACTIVE STRATEGY"
          regime := "TREND CONFIRMED (DAILY, DOWN)"
          notes := [Diag.dailyBearish, Diag.longDiscouraged, Diag.standingDown]
            ++ (evaluate_trend daily_candles).reasons
          range_decision := "NO RANGE"
          trend_decision := (evaluate_trend daily_candles).decision
          trend_direction := some "DOWN" }
    else
      { strategy := "NO ACTIVE STRATEGY"
        regime := "DRIFT / TRANSITION"
        notes := [Diag.noValidatedRange, Diag.noConfirmedTrend,
                  Diag.betweenRegimes, Diag.standingDown]
        range_decision := "NO RANGE"
        trend_decision := "NO TREND"
        trend_direction := none }

/-! ## Trade plans (`trade_plan.py`)

The Python generators read boundary prices off attributes
(`range_decision.lower` / `.upper`, `trend_decision.trend_origin` /
`.trend_high`) that the `RangeDecision` / `TrendDecision` dataclasses in
this repository do not declare; the arithmetic bodies are functions of
those two boundary numbers only, so the model takes the boundaries as
direct arguments.  Neither generator contains any validation or any
error path. -/

structure RangeTradePlan where
  strategy : String
  regime : String
  range_lower : ℚ
  range_upper : ℚ
  entry_zone_low : ℚ
  entry_zone_high : ℚ
  invalidation : ℚ
  tp1 : ℚ
  tp2 : ℚ
  notes : String
  deriving DecidableEq, Repr

structure TrendTradePlan where
  strategy : String
  regime : String
  trend_origin : ℚ
  trend_high : ℚ
  pullback_zone_high : ℚ
  pullback_zone_low : ℚ
  invalidation : ℚ
  target : ℚ
  notes : String
  deriving DecidableEq, Repr

/-- Model of `trade_plan.generate_range_trade_plan` (boundaries `L = lower`,
`U = upper`, `W = U - L`). -/
def generate_range_trade_plan (lower upper : ℚ) : RangeTradePlan :=
  let W := upper - lower
  { strategy := "RANGE TRADING"
    regime := "RANGE"
    range_lower := lower
    range_upper := upper
    entry_zone_low := lower
    entry_zone_high := lower + 0.15 * W
    invalidation := lower - 0.10 * W
    tp1 := lower + 0.50 * W
    tp2 := upper - 0.10 * W
    notes := "Mean reversion inside validated range" }

/-- Model of `trade_plan.generate_trend_trade_plan` (boundaries `O = origin`,
`H = high`, `R = H - O`). -/
def generate_trend_trade_plan (origin high : ℚ) : TrendTradePlan :=
  let R := high - origin
  { strategy := "TREND PULLBACK"
    regime := "TREND_UP"
    trend_origin := origin
    trend_high := high
    pullback_zone_high := high - 0.30 * R
    pullback_zone_low := high - 0.50 * R
    invalidation := origin
    target := high
    notes := "Pullback continuation in confirmed trend" }

/-! ## Claim-side predicates (transcribed from the specification's words,
for comparison with the scan implemented by `pullbackScan`) -/

/-- From the claim: a pullback is any candle whose close moves against
the dominant direction relative to the previous candle (`p` is the
(previous, current) pair). -/
def isPullback (dir : String) (p : Candle × Candle) : Prop :=
  (dir = "UP" ∧ p.2.close < p.1.close) ∨ (dir = "DOWN" ∧ p.1.close < p.2.close)

instance (dir : String) (p : Candle × Candle) : Decidable (isPullback dir p) := by
  unfold isPullback; infer_instance

/-- From the claim: the pullback fails to reverse when price never
re-crosses the window's origin close — for UP the candle's low stays
above the origin, for DOWN its high stays below the origin. -/
def failsToReverse (dir : String) (origin : ℚ) (p : Candle × Candle) : Prop :=
  (dir = "UP" → origin < p.2.low) ∧ (dir = "DOWN" → p.2.high < origin)

instance (dir : String) (origin : ℚ) (p : Candle × Candle) :
    Decidable (failsToReverse dir origin p) := by
  unfold failsToReverse; infer_instance

/-! ## Concrete inputs used by the witnesses -/

/-- Nine flat daily candles: net move 0, no directional closes, so the
trend is not confirmed. -/
def flat9 : List Candle :=
  (List.range 9).map (fun i => ⟨i, 100, 100, 100, 100⟩)

/-- Nine daily candles whose trailing 8-candle window is a confirmed
DOWN trend: net move −17%, six downward closes, one pullback
(88 → 89) whose high 89.5 stays below the origin close 100. -/
def dcDown : List Candle :=
  [⟨0, 101, 101.5, 100.5, 101⟩,
   ⟨1, 100, 100.5, 99.5, 100⟩,
   ⟨2, 97, 97.5, 96.5, 97⟩,
   ⟨3, 94, 94.5, 93.5, 94⟩,
   ⟨4, 91, 91.5, 90.5, 91⟩,
   ⟨5, 88, 88.5, 87.5, 88⟩,
   ⟨6, 89, 89.5, 88.5, 89⟩,
   ⟨7, 86, 86.5, 85.5, 86⟩,
   ⟨8, 83, 83.5, 82.5, 83⟩]

/-- The diagnostics record `evaluate_trend` computes for `dcDown`. -/
def dgDown : TrendDiagnostics :=
  { direction := "DOWN", price_then := 100, price_now := 83,
    net_move_pct := -17, directional_closes := 6,
    pullback_observed := true, pullback_failed := true }

/-! ## Theorems -/

/-- One step of the pullback scan factors into the claim-side
predicates. -/
theorem pullbackStep_eq (dir : String) (origin : ℚ) (acc : Bool × Bool)
    (p : Candle × Candle) :
    pullbackStep dir origin acc p =
      (acc.1 || decide (isPullback dir p),
       acc.2 || decide (isPullback dir p ∧ failsToReverse dir origin p)) := by
  by_cases hU : dir = "UP"
  · subst hU
    by_cases hc : p.2.close < p.1.close
    · by_cases hl : origin < p.2.low <;>
        simp [pullbackStep, isPullback, failsToReverse, hc, hl]
    · simp [pullbackStep, isPullback, failsToReverse, hc]
  · by_cases hD : dir = "DOWN"
    · subst hD
      by_cases hc : p.1.close < p.2.close
      · by_cases hh : p.2.high < origin <;>
          simp [pullbackStep, isPullback, failsToReverse, hc, hh]
      · simp [pullbackStep, isPullback, failsToReverse, hc]
    · simp [pullbackStep, isPullback, failsToReverse, hU, hD]

/-- The pullback scan computes, for any starting flags, the disjunction
of the start flags with "some pair is a pullback" and "some pair is a
pullback that failed to reverse". -/
theorem pullbackScan_eq (dir : String) (origin : ℚ) :
    ∀ (pairs : List (Candle × Candle)) (acc : Bool × Bool),
      pairs.foldl (pullbackStep dir origin) acc =
        (acc.1 || pairs.any (fun p => decide (isPullback dir p)),
         acc.2 || pairs.any (fun p =>
           decide (isPullback dir p ∧ failsToReverse dir origin p)))
  | [], acc => by simp
  | p :: rest, acc => by
      rw [List.foldl_cons, pullbackScan_eq dir origin rest, pullbackStep_eq]
      simp [Bool.or_assoc]

/-! The core `Rat` arithmetic operations are sealed (`irreducible`); the
concrete evaluations below need them unfolded for `decide`. -/

set_option allowUnsafeReducibility true

attribute [local semireducible] Rat.add Rat.mul Rat.sub Rat.div Rat.inv Rat.neg Rat.blt
  Rat.ofScientific

set_option maxRecDepth 10000

/-- C6: on the synthetic scenario — 42 flat candles at close 104 except
indices 8 and 14 touching the upper proximity band (high 108) and
indices 20 and 26 touching the lower proximity band (low 100), range
width 8%, all closes inside [100, 108] — the Range Evaluator's window
check for 7 days returns valid = true. -/
theorem synthetic_range_window_valid :
    evaluate_window synthetic_candles 7 =
      (true, [Diag.rangeWidth 8, Diag.closesInside 100, Diag.upperRejections 2,
              Diag.lowerBounces 2, Diag.recentMove 0]) := by
  decide

/-- C7: on well-formed boundary pairs, the Trade Plan Generator computes
exactly the specified fractional levels: for a range plan with width
`W = upper - lower` the entry zone is `[lower, lower + 0.15W]`,
invalidation `lower - 0.10W`, targets `lower + 0.50W` and
`upper - 0.10W`; for a trend plan with `R = high - origin` the pullback
zone is `[high - 0.50R, high - 0.30R]`, invalidation `origin`, single
target `high`. -/
theorem trade_plan_levels (lower upper origin high : ℚ)
    (_h1 : lower < upper) (_h2 : origin < high) :
    (generate_range_trade_plan lower upper).entry_zone_low = lower
  ∧ (generate_range_trade_plan lower upper).entry_zone_high = lower + 0.15 * (upper - lower)
  ∧ (generate_range_trade_plan lower upper).invalidation = lower - 0.10 * (upper - lower)
  ∧ (generate_range_trade_plan lower upper).tp1 = lower + 0.50 * (upper - lower)
  ∧ (generate_range_trade_plan lower upper).tp2 = upper - 0.10 * (upper - lower)
  ∧ (generate_trend_trade_plan origin high).pullback_zone_low = high - 0.50 * (high - origin)
  ∧ (generate_trend_trade_plan origin high).pullback_zone_high = high - 0.30 * (high - origin)
  ∧ (generate_trend_trade_plan origin high).invalidation = origin
  ∧ (generate_trend_trade_plan origin high).target = high :=
  ⟨rfl, rfl, rfl, rfl, rfl, rfl, rfl, rfl, rfl⟩

theorem trade_plan_levels_app :
    (generate_range_trade_plan 100 108).entry_zone_high = 100 + 0.15 * (108 - 100) :=
  (trade_plan_levels 100 108 100 110 (by norm_num) (by norm_num)).2.1

/-- C3 (counterexample): on the malformed boundary pairs
`upper = 3 ≤ lower = 5` and `high = 2 ≤ origin = 7` the generators do
not fail at all — no `InvalidBoundaryError` exists anywhere in the code —
they return ordinary plans with inverted levels. -/
theorem trade_plan_no_failure_on_malformed :
    generate_range_trade_plan 5 3 =
      { strategy := "RANGE TRADING", regime := "RANGE",
        range_lower := 5, range_upper := 3,
        entry_zone_low := 5, entry_zone_high := 4.7,
        invalidation := 5.2, tp1 := 4, tp2 := 3.2,
        notes := "Mean reversion inside validated range" }
  ∧ generate_trend_trade_plan 7 2 =
      { strategy := "TREND PULLBACK", regime := "TREND_UP",
        trend_origin := 7, trend_high := 2,
        pullback_zone_high := 3.5, pullback_zone_low := 4.5,
        invalidation := 7, target := 2,
        notes := "Pullback continuation in confirmed trend" } := by
  decide

/-- C3 (amended): the Trade Plan Generator performs no boundary
validation and has no failure path: on every boundary pair — well-formed
or degenerate — both generators succeed and return exactly the plan
given by the fractional-level arithmetic. -/
theorem trade_plan_total (lower upper origin high : ℚ) :
    generate_range_trade_plan lower upper =
      { strategy := "RANGE TRADING", regime := "RANGE",
        range_lower := lower, range_upper := upper,
        entry_zone_low := lower,
        entry_zone_high := lower + 0.15 * (upper - lower),
        invalidation := lower - 0.10 * (upper - lower),
        tp1 := lower + 0.50 * (upper - lower),
        tp2 := upper - 0.10 * (upper - lower),
        notes := "Mean reversion inside validated range" }
  ∧ generate_trend_trade_plan origin high =
      { strategy := "TREND PULLBACK", regime := "TREND_UP",
        trend_origin := origin, trend_high := high,
        pullback_zone_high := high - 0.30 * (high - origin),
        pullback_zone_low := high - 0.50 * (high - origin),
        invalidation := origin, target := high,
        notes := "Pullback continuation in confirmed trend" } :=
  ⟨rfl, rfl⟩

/-- C8: whenever the candle sequence is shorter than
`max_days × candles_per_day` (= 60), the range gate short-circuits with
an unconditional `NO RANGE` whose only reason is the insufficient-data
message — no rule diagnostics, no candidate window. -/
theorem range_gate_insufficient_data (candles : List Candle)
    (h : candles.length < LOOKBACK_DAYS_MAX * CANDLES_PER_DAY) :
    range_gate_decision candles = ⟨"NO RANGE", [Diag.insufficientData]⟩ := by
  unfold range_gate_decision
  rw [if_pos h]

theorem range_gate_insufficient_data_app :
    range_gate_decision [] = ⟨"NO RANGE", [Diag.insufficientData]⟩ :=
  range_gate_insufficient_data [] (by decide)

/-- C1: whenever the range verdict is valid, the Regime Combinator
outputs the range-trading strategy, regardless of the daily candles the
trend gate would see — Range dominates Trend unconditionally. -/
theorem range_priority_over_trend (range_candles daily_candles : List Candle)
    (h : (range_gate_decision range_candles).decision = "RANGE VALID") :
    (decide_regime range_candles daily_candles).strategy = "RANGE TRADING" := by
  unfold decide_regime
  rw [if_pos h]

theorem range_priority_over_trend_app :
    (decide_regime synthetic_candles_padded [] ).strategy = "RANGE TRADING" :=
  range_priority_over_trend synthetic_candles_padded [] (by decide)

/-- C10: when the range gate reports a valid range, the regime decision
does not depend on the daily candles at all (the trend evaluator is
never consulted), and it records `trend_decision = "SKIPPED"` and no
trend direction. -/
theorem range_valid_skips_trend (range_candles d1 d2 : List Candle)
    (h : (range_gate_decision range_candles).decision = "RANGE VALID") :
    decide_regime range_candles d1 = decide_regime range_candles d2
  ∧ (decide_regime range_candles d1).trend_decision = "SKIPPED"
  ∧ (decide_regime range_candles d1).trend_direction = none := by
  unfold decide_regime
  simp [if_pos h]

theorem range_valid_skips_trend_app :
    decide_regime synthetic_candles_padded [] = decide_regime synthetic_candles_padded dcDown
  ∧ (decide_regime synthetic_candles_padded []).trend_decision = "SKIPPED"
  ∧ (decide_regime synthetic_candles_padded []).trend_direction = none :=
  range_valid_skips_trend synthetic_candles_padded [] dcDown (by decide)

/-- C9: with no valid range and a confirmed DOWN trend, the Regime
Combinator stands down with `NO ACTIVE STRATEGY`, and its regime label
and notes differ from those of the default drift/transition branch, so
the bearish stand-down is auditable as such. -/
theorem bearish_stand_down_distinct (range_candles daily_candles : List Candle)
    (h1 : (range_gate_decision range_candles).decision ≠ "RANGE VALID")
    (h2 : (evaluate_trend daily_candles).decision = "TREND CONFIRMED")
    (h3 : (evaluate_trend daily_candles).direction = some "DOWN") :
    (decide_regime range_candles daily_candles).strategy = "NO ACTIVE STRATEGY"
  ∧ (decide_regime range_candles daily_candles).regime = "TREND CONFIRMED (DAILY, DOWN)"
  ∧ (decide_regime range_candles daily_candles).regime ≠ "DRIFT / TRANSITION"
  ∧ (decide_regime range_candles daily_candles).notes ≠
      [Diag.noValidatedRange, Diag.noConfirmedTrend, Diag.betweenRegimes, Diag.standingDown] := by
  have hne : ¬ (evaluate_trend daily_candles).direction = some "UP" := by
    rw [h3]; decide
  unfold decide_regime
  rw [if_neg h1, if_pos h2, if_neg hne]
  refine ⟨rfl, rfl, by simp, ?_⟩
  simp

theorem bearish_stand_down_distinct_app :
    (decide_regime [] dcDown).strategy = "NO ACTIVE STRATEGY"
  ∧ (decide_regime [] dcDown).regime = "TREND CONFIRMED (DAILY, DOWN)"
  ∧ (decide_regime [] dcDown).regime ≠ "DRIFT / TRANSITION"
  ∧ (decide_regime [] dcDown).notes ≠
      [Diag.noValidatedRange, Diag.noConfirmedTrend, Diag.betweenRegimes, Diag.standingDown] :=
  bearish_stand_down_distinct [] dcDown (by decide) (by decide) (by decide)

/-- C2 (counterexample): nine flat daily candles make every trend
condition fail (net move 0, no directional closes), yet the returned
`NO TREND` verdict carries an empty `reasons` list — no diagnostic tag
of a first failing condition is produced. -/
theorem trend_verdict_has_no_tag :
    (evaluate_trend flat9).decision = "NO TREND"
  ∧ (evaluate_trend flat9).reasons = [] := by
  decide

/-- C2 (amended): `evaluate_trend` evaluates all four conditions as one
joint conjunction and reports no per-condition diagnostic: on every
sufficiently long window whose trend is not confirmed it returns the
`NO TREND` verdict with an empty `reasons` list and no direction. -/
theorem trend_verdict_untagged (candles : List Candle)
    (hlen : LOOKBACK_DAYS + 1 ≤ candles.length)
    (hnt : (evaluate_trend candles).decision = "NO TREND") :
    (evaluate_trend candles).reasons = [] ∧ (evaluate_trend candles).direction = none := by
  have hc : ¬ candles.length < LOOKBACK_DAYS + 1 := by omega
  unfold evaluate_trend at hnt ⊢
  rw [if_neg hc] at hnt ⊢
  cases hconf : trendConfirmed candles with
  | true => simp at hnt; exact absurd hnt (by simp [hconf])
  | false => exact ⟨rfl, rfl⟩

theorem trend_verdict_untagged_app :
    (evaluate_trend flat9).reasons = [] ∧ (evaluate_trend flat9).direction = none :=
  trend_verdict_untagged flat9 (by decide) (by decide)

/-- C5: in the Trend Evaluator, the `pullback_observed` flag is set iff
some candle's close moves against the dominant direction relative to the
previous candle, the `pullback_failed` flag is set iff some such
pullback candle never re-crosses the window's origin close (for UP its
low stays above the origin, for DOWN its high stays below it), and a
confirmed trend requires both flags. -/
theorem pullback_semantics (candles : List Candle)
    (hlen : LOOKBACK_DAYS + 1 ≤ candles.length)
    (dg : TrendDiagnostics)
    (hdg : (evaluate_trend candles).diagnostics = some dg) :
    (dg.pullback_observed = true ↔
       ∃ p ∈ trendPairs candles, isPullback (trendDirection candles) p)
  ∧ (dg.pullback_failed = true ↔
       ∃ p ∈ trendPairs candles, isPullback (trendDirection candles) p
         ∧ failsToReverse (trendDirection candles) (start_price candles) p)
  ∧ ((evaluate_trend candles).decision = "TREND CONFIRMED" →
       dg.pullback_observed = true ∧ dg.pullback_failed = true) := by
  have hc : ¬ candles.length < LOOKBACK_DAYS + 1 := by omega
  have hflags : pullbackFlags candles =
      ((trendPairs candles).any
         (fun p => decide (isPullback (trendDirection candles) p)),
       (trendPairs candles).any
         (fun p => decide (isPullback (trendDirection candles) p
           ∧ failsToReverse (trendDirection candles) (start_price candles) p))) := by
    unfold pullbackFlags pullbackScan
    rw [pullbackScan_eq]
    simp
  unfold evaluate_trend at hdg ⊢
  rw [if_neg hc] at hdg ⊢
  rw [Option.some.injEq] at hdg
  subst hdg
  refine ⟨?_, ?_, ?_⟩
  · show (pullbackFlags candles).1 = true ↔ _
    rw [hflags]
    simp [List.any_eq_true]
  · show (pullbackFlags candles).2 = true ↔ _
    rw [hflags]
    simp [List.any_eq_true]
  · intro hdec
    cases hconf : trendConfirmed candles with
    | false => simp at hdec; exact absurd hdec (by simp [hconf])
    | true =>
        have := hconf
        unfold trendConfirmed at this
        simp only [Bool.and_eq_true] at this
        exact ⟨this.1.1.2, this.1.2⟩

theorem pullback_semantics_app :
    dgDown.pullback_observed = true ↔
      ∃ p ∈ trendPairs dcDown, isPullback (trendDirection dcDown) p :=
  (pullback_semantics dcDown (by decide) dgDown (by decide)).1

/-- Rewriting of `evaluate_window` in terms of its named decomposition (definitional:
the two sides zeta-reduce to the same term). -/
theorem evaluate_window_eq (candles : List Candle) (days : ℕ) :
    evaluate_window candles days =
      if window_failures candles days ≠ [] then
        (false, window_diagnostics candles days ++ [Diag.failuresHeader]
          ++ window_failures candles days)
      else (true, window_diagnostics candles days) := rfl

/-- A failed window check always reports the five diagnostics followed by
the header and the nonempty ordered list of failing rules. -/
theorem evaluate_window_failure_form (candles : List Candle) (d : ℕ)
    (hfalse : (evaluate_window candles d).1 = false) :
    (evaluate_window candles d).2 =
      window_diagnostics candles d ++ Diag.failuresHeader :: window_failures candles d
    ∧ window_failures candles d ≠ [] := by
  rw [evaluate_window_eq] at hfalse ⊢
  by_cases hr : window_failures candles d ≠ []
  · rw [if_pos hr]
    exact ⟨by simp, hr⟩
  · rw [if_neg hr] at hfalse
    simp at hfalse

/-- C4: the range search tries day counts 7, 8, 9, 10 in ascending
order and stops at the first validating one (so a validating day count
is returned only when every smaller candidate failed); when no
candidate validates, the returned `NO RANGE` carries the diagnostics of
the last (longest, 10-day) candidate — which end, by construction of
`evaluate_window`, with the ordered list of its failing rules. -/
theorem range_search_first_success (candles : List Candle)
    (hlen : LOOKBACK_DAYS_MAX * CANDLES_PER_DAY ≤ candles.length) :
    ((∀ d, LOOKBACK_DAYS_MIN ≤ d → d ≤ LOOKBACK_DAYS_MAX →
        (evaluate_window candles d).1 = false) →
      range_gate_decision candles =
        ⟨"NO RANGE", Diag.windowChecked LOOKBACK_DAYS_MAX ::
           (evaluate_window candles LOOKBACK_DAYS_MAX).2⟩
      ∧ (evaluate_window candles LOOKBACK_DAYS_MAX).2 =
          window_diagnostics candles LOOKBACK_DAYS_MAX
            ++ Diag.failuresHeader :: window_failures candles LOOKBACK_DAYS_MAX
      ∧ window_failures candles LOOKBACK_DAYS_MAX ≠ [])
  ∧ (∀ d, LOOKBACK_DAYS_MIN ≤ d → d ≤ LOOKBACK_DAYS_MAX →
      (evaluate_window candles d).1 = true →
      (∀ e, LOOKBACK_DAYS_MIN ≤ e → e < d → (evaluate_window candles e).1 = false) →
      range_gate_decision candles =
        ⟨"RANGE VALID", Diag.validRange d :: (evaluate_window candles d).2⟩) := by
  have hc : ¬ candles.length < LOOKBACK_DAYS_MAX * CANDLES_PER_DAY := by omega
  constructor
  · intro hall
    have h7 := hall 7 (by norm_num [LOOKBACK_DAYS_MIN]) (by norm_num [LOOKBACK_DAYS_MAX])
    have h8 := hall 8 (by norm_num [LOOKBACK_DAYS_MIN]) (by norm_num [LOOKBACK_DAYS_MAX])
    have h9 := hall 9 (by norm_num [LOOKBACK_DAYS_MIN]) (by norm_num [LOOKBACK_DAYS_MAX])
    have h10 := hall 10 (by norm_num [LOOKBACK_DAYS_MIN]) (by norm_num [LOOKBACK_DAYS_MAX])
    refine ⟨?_, (evaluate_window_failure_form candles LOOKBACK_DAYS_MAX h10).1,
      (evaluate_window_failure_form candles LOOKBACK_DAYS_MAX h10).2⟩
    unfold range_gate_decision
    rw [if_neg hc]
    show range_gate_loop candles [7, 8, 9, 10] 0 [] = _
    simp [range_gate_loop, h7, h8, h9, h10, LOOKBACK_DAYS_MAX]
  · intro d hd1 hd2 hvalid hprev
    unfold range_gate_decision
    rw [if_neg hc]
    show range_gate_loop candles [7, 8, 9, 10] 0 [] = _
    have hd1' : 7 ≤ d := hd1
    have hd2' : d ≤ 10 := hd2
    interval_cases d
    · simp [range_gate_loop, hvalid]
    · have h7 := hprev 7 (by norm_num [LOOKBACK_DAYS_MIN]) (by norm_num)
      simp [range_gate_loop, h7, hvalid]
    · have h7 := hprev 7 (by norm_num [LOOKBACK_DAYS_MIN]) (by norm_num)
      have h8 := hprev 8 (by norm_num [LOOKBACK_DAYS_MIN]) (by norm_num)
      simp [range_gate_loop, h7, h8, hvalid]
    · have h7 := hprev 7 (by norm_num [LOOKBACK_DAYS_MIN]) (by norm_num)
      have h8 := hprev 8 (by norm_num [LOOKBACK_DAYS_MIN]) (by norm_num)
      have h9 := hprev 9 (by norm_num [LOOKBACK_DAYS_MIN]) (by norm_num)
      simp [range_gate_loop, h7, h8, h9, hvalid]

theorem range_search_first_success_app :
    range_gate_decision synthetic_candles_padded =
      ⟨"RANGE VALID", Diag.validRange 7 ::
         (evaluate_window synthetic_candles_padded 7).2⟩ :=
  (range_search_first_success synthetic_candles_padded (by decide)).2 7
    (by decide) (by decide) (by decide)
    (fun e he1 he2 => absurd (lt_of_le_of_lt he1 he2) (by decide))
